import Mathlib

/-!
Verification of the pact-go v3 plugin consumer subsystem.

This file gives a shallow embedding of:
* the session-oriented plugin mock server of `examples/v3/plugin_socket.go`
  (sessions, exact-match interaction matcher, mismatch calculator,
  admin-plane session creation and interaction loading), and
* the contract-test orchestration of the `v3` package (`PluginProvider`,
  `validateConfig`, `ExecuteTest`, `WritePact`) together with the FFI
  wrappers of `v3/internal/native` (`CreatePluginMockServer`,
  `AddPluginInteractions`, `VerifyPlugin`, `CleanupPluginMockServer`,
  `WritePactFile`).

Go maps are modelled as association lists with last-write-wins insertion;
the native engine, the OS (working directory, ephemeral ports, port
readiness) and the out-of-scope JSON codec are modelled as an oracle
record `Env` of pure functions.  Effects on the native engine are made
observable as a trace of `EngineOp` values.
-/

/-! ### Go map model: association lists, last write wins -/

/-- Delete a key from a Go map (modelled as an association list). -/
def assocErase {α : Type} (m : List (String × α)) (k : String) : List (String × α) :=
  m.filter (fun p => decide (p.1 ≠ k))

/-- Go map assignment `m[k] = v`: the binding for `k` is replaced. -/
def assocInsert {α : Type} (m : List (String × α)) (k : String) (v : α) : List (String × α) :=
  assocErase m k ++ [(k, v)]

/-- Go map lookup `v, ok := m[k]`. -/
def assocLookup {α : Type} (m : List (String × α)) (k : String) : Option α :=
  (m.find? (fun p => decide (p.1 = k))).map Prod.snd

/-- The keys of a Go map. -/
def assocKeys {α : Type} (m : List (String × α)) : List String :=
  m.map Prod.fst

/-! ### plugin_socket.go: data model -/

/-- `interaction` (plugin_socket.go): one expected message and its response. -/
structure interaction where
  Message : String
  Response : String
  Delimeter : String
deriving DecidableEq, Repr

/-- `interactions` (plugin_socket.go): key is the TCP message text. -/
abbrev interactionsMap := List (String × interaction)

/-- `session` (plugin_socket.go). -/
structure session where
  id : String
  interactions : interactionsMap
  matchedInteractions : List String
  port : Int
deriving DecidableEq, Repr

/-- `mismatchDetail` (plugin_socket.go). -/
structure mismatchDetail where
  Actual : String
  Expected : String
  Mismatch : String
deriving DecidableEq, Repr

/-- `mismatched` (plugin_socket.go). -/
structure mismatched where
  Mismatches : List mismatchDetail
deriving DecidableEq, Repr

/-- `sessionResponse` (plugin_socket.go). -/
structure sessionResponse where
  ID : String
  Port : Int
  AdminPort : Int
deriving DecidableEq, Repr

/-- The admin-plane port constant `adminPort = 4444` (plugin_socket.go). -/
def adminPort : Int := 4444

/-- A single-quote character, used in the mismatch reason text. -/
def squote : String := String.singleton (Char.ofNat 39)

/-! ### plugin_socket.go: operations -/

/-- `matchRequest(message, s)` (plugin_socket.go:66-76): exact lookup of the
message in the session's interaction map; on a hit the key is appended to
`matchedInteractions` and the configured response returned; on a miss the
empty string is returned and the session is unchanged. -/
def matchRequest (message : String) (s : session) : String × session :=
  match assocLookup s.interactions message with
  | some response =>
      (response.Response,
        { s with matchedInteractions := s.matchedInteractions ++ [message] })
  | none => ("", s)

/-- `handleRequest(conn, s)` (plugin_socket.go:52-64), at the level of the
bytes read from the connection: on a read error (other than EOF) the empty
payload is written back and nothing is matched; otherwise the read text is
whitespace-trimmed and matched. -/
def handleRequest (readOk : Bool) (raw : String) (s : session) : String × session :=
  if readOk then matchRequest raw.trim s
  else ("", s)

/-- `sessionMismatches(s)` (plugin_socket.go:78-102): copy the interaction
map, delete every matched key, and emit one detail per leftover entry. -/
def sessionMismatches (s : session) : mismatched :=
  let mismatchedInteractions :=
    s.matchedInteractions.foldl (fun m mtch => assocErase m mtch) s.interactions
  { Mismatches :=
      mismatchedInteractions.map (fun p =>
        { Actual := ""
          Expected := p.2.Message
          Mismatch := "expected message " ++ squote ++ p.2.Message ++ squote
              ++ ", but got none" }) }

/-- The session mutation of `loadInteractions` (plugin_socket.go:205-227):
a fresh map is built from the request body, keyed by `Message` (later
duplicates overwrite); `matchedInteractions` is left untouched. -/
def loadInteractionsCore (s : session) (reqInteractions : List interaction) : session :=
  { s with interactions :=
      reqInteractions.foldl (fun m v => assocInsert m v.Message v) [] }

/-- `createSession` (plugin_socket.go:177-202), success path: a fresh port
and a fresh UUID (both modelled as parameters, they come from the OS and
the UUID generator) make a new empty session, stored in the registry; the
response carries the id and the port, while `AdminPort` is never assigned
and keeps the Go zero value `0`. -/
def createSession (freshPort : Int) (freshId : String)
    (sessions : List (String × session)) :
    List (String × session) × sessionResponse :=
  let s : session :=
    { id := freshId, interactions := [], matchedInteractions := [], port := freshPort }
  (assocInsert sessions freshId s,
    { ID := freshId, Port := freshPort, AdminPort := 0 })

/-! ### Session predicates used in the claims -/

/-- `matchedMessages ⊆ keys(expectedInteractions)`. -/
def sessionInvariant (s : session) : Prop :=
  ∀ m ∈ s.matchedInteractions, m ∈ assocKeys s.interactions

instance (s : session) : Decidable (sessionInvariant s) :=
  List.decidableBAll _ _

/-- The interaction map binds every key to an interaction whose `Message`
field is that key (true of every map built by `loadInteractions`). -/
def wellKeyed (m : interactionsMap) : Prop :=
  ∀ p ∈ m, p.2.Message = p.1

instance (m : interactionsMap) : Decidable (wellKeyed m) :=
  List.decidableBAll _ _

/-- The keys of the map are pairwise distinct. -/
def nodupKeys {α : Type} (m : List (String × α)) : Prop :=
  (assocKeys m).Nodup

instance {α : Type} (m : List (String × α)) : Decidable (nodupKeys m) :=
  inferInstanceAs (Decidable (List.Nodup _))

/-- The mismatch detail emitted for a never-matched expected message. -/
def mkMissingDetail (k : String) : mismatchDetail :=
  { Actual := ""
    Expected := k
    Mismatch := "expected message " ++ squote ++ k ++ squote ++ ", but got none" }

/-! ### v3/internal/native: data model and oracle environment -/

/-- An opaque dynamic interaction payload (Go `interface{}`). -/
abbrev InteractionPayload := String

/-- `PluginInteractionMismatchDetail` (native). -/
structure PluginInteractionMismatchDetail where
  Actual : String
  Expected : String
  Mismatch : String
deriving DecidableEq, Repr

/-- `PluginInteractionMismatch` (native). -/
structure PluginInteractionMismatch where
  Mismatches : List PluginInteractionMismatchDetail
deriving DecidableEq, Repr

/-- One observable call into the native engine (the C FFI surface). -/
inductive EngineOp where
  | createPluginMockServerOp (port : Int) (cmd : String)
  | addPluginInteractionOp (port : Int) (payload : String)
  | pluginMockServerMatchedOp (port : Int)
  | pluginMockServerMismatchesOp (port : Int)
  | cleanupPluginMockServerOp (port : Int)
  | writePactFileOp (port : Int) (dir : String)
deriving DecidableEq, Repr

/-- The oracle environment: the native engine's replies, the OS-provided
facts (working directory, ephemeral ports, port readiness within the 10 s
poll), and the out-of-scope JSON codec. -/
structure Env where
  getwd : String
  getFreePort : Except Unit Int
  create_plugin_mock_server : Int → String → Int
  add_plugin_interaction : Int → String → Int
  plugin_mock_server_matched : Int → Int
  plugin_mock_server_mismatches : Int → String
  cleanup_plugin_mock_server : Int → Int
  write_pact_file : Int → String → Int
  marshalInteractions : List InteractionPayload → Except String String
  unmarshalMismatches : String → Except String PluginInteractionMismatch

/-! ### v3/internal/native: FFI wrappers -/

/-- `CreatePluginMockServer(port, cmd)` (native, part_001:148-155): the raw
engine return value is handed back as the port and the error is always nil. -/
def CreatePluginMockServer (env : Env) (port : Int) (cmd : String) :
    (Int × Option String) × List EngineOp :=
  ((env.create_plugin_mock_server port cmd, none),
    [EngineOp.createPluginMockServerOp port cmd])

/-- `AddPluginInteractions(port, interactions)` (native, part_001:158-178):
marshal the payload; on a marshal error return it without touching the
engine; otherwise call `add_plugin_interaction` and discard its return
code, returning nil. -/
def AddPluginInteractions (env : Env) (port : Int)
    (interactions : List InteractionPayload) : Option String × List EngineOp :=
  match env.marshalInteractions interactions with
  | Except.error e => (some e, [])
  | Except.ok b =>
      let _ := env.add_plugin_interaction port b
      (none, [EngineOp.addPluginInteractionOp port b])

/-- `PluginMockServerMismatchedRequests(port)` (native, part_001:218-230). -/
def PluginMockServerMismatchedRequests (env : Env) (port : Int) :
    Except String PluginInteractionMismatch × List EngineOp :=
  (env.unmarshalMismatches (env.plugin_mock_server_mismatches port),
    [EngineOp.pluginMockServerMismatchesOp port])

/-- `VerifyPlugin(port)` (native, part_001:201-214): ask the engine whether
everything matched, then fetch and parse the mismatch report; a parse
failure yields `(false, {})`. -/
def VerifyPlugin (env : Env) (port : Int) :
    (Bool × PluginInteractionMismatch) × List EngineOp :=
  let res := env.plugin_mock_server_matched port
  match PluginMockServerMismatchedRequests env port with
  | (Except.error _, ops) =>
      ((false, { Mismatches := [] }), EngineOp.pluginMockServerMatchedOp port :: ops)
  | (Except.ok mismatchedRes, ops) =>
      ((res == 1, mismatchedRes), EngineOp.pluginMockServerMatchedOp port :: ops)

/-- `CleanupPluginMockServer(port)` (native, part_001:181-186). -/
def CleanupPluginMockServer (env : Env) (port : Int) : Bool × List EngineOp :=
  (env.cleanup_plugin_mock_server port == 1,
    [EngineOp.cleanupPluginMockServerOp port])

/-- `WritePactFile(port, dir)` (native, part_001:280-304): call
`write_pact_file` and decode its return code. -/
def WritePactFile (env : Env) (port : Int) (dir : String) :
    Option String × List EngineOp :=
  let res := env.write_pact_file port dir
  (if res == 0 then none
   else if res == 1 then some "a general panic occured when starting/invoking mock service (this indicates a defect in the framework)"
   else if res == 2 then some "unable to write to file"
   else if res == 3 then some "unable to find mock server with the given port"
   else some "an unknown error ocurred when writing to pact file",
   [EngineOp.writePactFileOp port dir])

/-! ### v3 package: PluginProvider and orchestration -/

/-- `PluginProviderConfig` (v3, part_000:30-59). -/
structure PluginProviderConfig where
  Consumer : String
  Provider : String
  LogDir : String
  PactDir : String
  Host : String
  Port : Int
deriving DecidableEq, Repr

/-- `PluginProvider` (v3, part_000:76-79). -/
structure PluginProvider where
  config : PluginProviderConfig
  Interactions : List InteractionPayload
deriving DecidableEq, Repr

/-- `MockServerConfig` handed to the test callback; the TLS configuration
comes from the out-of-scope TLS collaborator and is not modelled. -/
structure MockServerConfig where
  Port : Int
  Host : String
deriving DecidableEq, Repr

/-- `validateConfig` (v3, part_000:82-108): fill the host and directory
defaults, and when the port is unset (`<= 0`) take one from the OS
ephemeral-port mechanism; fail when no free port could be obtained.
`filepath.Join(dir, x)` is modelled as `dir ++ "/" ++ x`. -/
def validateConfig (env : Env) (config : PluginProviderConfig) :
    Except String PluginProviderConfig :=
  let dir := env.getwd
  let c1 := if config.Host = "" then { config with Host := "127.0.0.1" } else config
  let c2 := if c1.LogDir = "" then { c1 with LogDir := dir ++ "/logs" } else c1
  let c3 := if c2.PactDir = "" then { c2 with PactDir := dir ++ "/pacts" } else c2
  if c3.Port ≤ 0 then
    match env.getFreePort with
    | Except.ok port => Except.ok { c3 with Port := port }
    | Except.error _ =>
        Except.error "error: unable to find free port, mock server will fail to start"
  else
    Except.ok c3

/-- `NewPluginProvider(config)` (v3, part_000:62-73): build the provider
and validate its configuration; a validation error yields no provider. -/
def NewPluginProvider (env : Env) (config : PluginProviderConfig) :
    Except String PluginProvider :=
  match validateConfig env config with
  | Except.error e => Except.error e
  | Except.ok c => Except.ok { config := c, Interactions := [] }

/-- `cleanInteractions` (v3, part_000:110-112). -/
def cleanInteractions (p : PluginProvider) : PluginProvider :=
  { p with Interactions := [] }

/-- `AddInteraction` (v3, part_000:186-190). -/
def AddInteraction (p : PluginProvider) (i : InteractionPayload) : PluginProvider :=
  { p with Interactions := p.Interactions ++ [i] }

/-- `WritePact` (v3, part_000:179-182): logs and returns nil, performing no
native-engine call at all. -/
def WritePact (p : PluginProvider) : Option String × List EngineOp :=
  (none, [])

/-- The error returned by `ExecuteTest`, tagged by the return site. -/
inductive ExecError where
  | startError (e : String)
  | timeoutError (port : Int)
  | loadError (e : String)
  | callbackError (e : String)
  | verificationError (mismatches : PluginInteractionMismatch)
  | writePactError (e : String)
deriving DecidableEq, Repr

/-- The observable outcome of one `ExecuteTest` invocation. -/
structure ExecResult where
  err : Option ExecError
  finalInteractions : List InteractionPayload
  cleanInteractionsRuns : Nat
  engineOps : List EngineOp
deriving DecidableEq, Repr

/-- `ExecuteTest(integrationTest)` (v3, part_000:117-173).  Each Go
`return` site is one branch; a `defer` contributes to every branch that
returns after its registration: `CleanupPluginMockServer(port)` is
registered after a nil-error mock-server start, `cleanInteractions` after
a successful `AddPluginInteractions`.  The readiness poll `waitForPort`
is modelled by the function parameter `waitForPort` (true means the port
became ready within the 10 s bound). -/
def ExecuteTest (env : Env) (waitForPort : Int → Bool) (p : PluginProvider)
    (integrationTest : MockServerConfig → Option String) : ExecResult :=
  let port := p.config.Port
  let cr := CreatePluginMockServer env port "test"
  let clientPort := cr.1.1
  match cr.1.2 with
  | some e =>
      { err := some (ExecError.startError e)
        finalInteractions := p.Interactions
        cleanInteractionsRuns := 0
        engineOps := cr.2 }
  | none =>
      let cleanupOps := (CleanupPluginMockServer env port).2
      if waitForPort port then
        let ar := AddPluginInteractions env port p.Interactions
        match ar.1 with
        | some e =>
            { err := some (ExecError.loadError e)
              finalInteractions := p.Interactions
              cleanInteractionsRuns := 0
              engineOps := cr.2 ++ ar.2 ++ cleanupOps }
        | none =>
            match integrationTest { Port := clientPort, Host := p.config.Host } with
            | some e =>
                { err := some (ExecError.callbackError e)
                  finalInteractions := (cleanInteractions p).Interactions
                  cleanInteractionsRuns := 1
                  engineOps := cr.2 ++ ar.2 ++ cleanupOps }
            | none =>
                let vr := VerifyPlugin env port
                if vr.1.1 then
                  let wr := WritePact p
                  { err := (wr.1).map ExecError.writePactError
                    finalInteractions := (cleanInteractions p).Interactions
                    cleanInteractionsRuns := 1
                    engineOps := cr.2 ++ ar.2 ++ vr.2 ++ wr.2 ++ cleanupOps }
                else
                  { err := some (ExecError.verificationError vr.1.2)
                    finalInteractions := (cleanInteractions p).Interactions
                    cleanInteractionsRuns := 1
                    engineOps := cr.2 ++ ar.2 ++ vr.2 ++ cleanupOps }
      else
        { err := some (ExecError.timeoutError port)
          finalInteractions := p.Interactions
          cleanInteractionsRuns := 0
          engineOps := cr.2 ++ cleanupOps }

/-- Is this the error returned from the mock-server-start branch of
`ExecuteTest`? -/
def isStartError : Option ExecError → Bool
  | some (ExecError.startError _) => true
  | _ => false

/-- Is this the error returned from the interaction-load branch of
`ExecuteTest`? -/
def isLoadError : Option ExecError → Bool
  | some (ExecError.loadError _) => true
  | _ => false

/-- Does the engine trace contain a pact-file write? -/
def hasPactWrite (ops : List EngineOp) : Bool :=
  ops.any fun op =>
    match op with
    | EngineOp.writePactFileOp _ _ => true
    | _ => false

/-- Did this `Except`-returning step succeed? -/
def exceptOk {ε α : Type} : Except ε α → Bool
  | Except.ok _ => true
  | Except.error _ => false

/-! ### Concrete fixtures for witnesses and counterexamples -/

/-- A benign oracle environment: everything succeeds. -/
def envHappy : Env :=
  { getwd := "/cwd"
    getFreePort := Except.ok 8080
    create_plugin_mock_server := fun _ _ => 9999
    add_plugin_interaction := fun _ _ => 0
    plugin_mock_server_matched := fun _ => 1
    plugin_mock_server_mismatches := fun _ => "{}"
    cleanup_plugin_mock_server := fun _ => 1
    write_pact_file := fun _ _ => 0
    marshalInteractions := fun _ => Except.ok "{}"
    unmarshalMismatches := fun _ => Except.ok { Mismatches := [] } }

/-- A provider with one pending interaction payload. -/
def provider1 : PluginProvider :=
  { config :=
      { Consumer := "consumer"
        Provider := "provider"
        LogDir := "/cwd/logs"
        PactDir := "/cwd/pacts"
        Host := "127.0.0.1"
        Port := 1234 }
    Interactions := ["payload1"] }

/-- One concrete engine-reported mismatch detail. -/
def detail1 : PluginInteractionMismatchDetail :=
  { Actual := "", Expected := "PING", Mismatch := "expected message PING, but got none" }

/-- An environment whose engine reports matched = 1 while the mismatch
report parses to a non-empty list. -/
def envMismatchOk : Env :=
  { envHappy with
    plugin_mock_server_matched := fun _ => 1
    unmarshalMismatches := fun _ => Except.ok { Mismatches := [detail1] } }

/-- Expected interactions used by the socket fixtures. -/
def iA : interaction := { Message := "A", Response := "respA", Delimeter := "" }

/-- A second expected interaction with a different message key. -/
def iB : interaction := { Message := "B", Response := "respB", Delimeter := "" }

/-- A freshly created session (no interactions, nothing matched). -/
def emptySession : session :=
  { id := "s1", interactions := [], matchedInteractions := [], port := 3333 }

/-- Load `iA`, match `"A"`, then load `iB` over the same session: the
repeated `loadInteractions` replaces the map without clearing
`matchedInteractions`. -/
def sessionAfterReload : session :=
  loadInteractionsCore
    ((matchRequest "A" (loadInteractionsCore emptySession [iA])).2) [iB]

/-- A session with `PING -> PONG` loaded and nothing matched yet. -/
def sessionPing : session :=
  loadInteractionsCore emptySession [{ Message := "PING", Response := "PONG", Delimeter := "" }]

/-! ### Helper lemmas on the Go map model -/

theorem foldl_assocErase_eq_filter {α : Type} (ks : List String) (m : List (String × α)) :
    ks.foldl (fun acc k => assocErase acc k) m =
      m.filter (fun p => decide (p.1 ∉ ks)) := by
  induction ks generalizing m with
  | nil => simp
  | cons k ks ih =>
      rw [List.foldl_cons, ih]
      unfold assocErase
      rw [List.filter_filter]
      apply List.filter_congr
      intro p _
      simp [List.mem_cons, not_or, Bool.and_comm]

theorem assocLookup_some_mem_keys {α : Type} {m : List (String × α)} {k : String} {v : α}
    (h : assocLookup m k = some v) : k ∈ assocKeys m := by
  unfold assocLookup at h
  rcases Option.map_eq_some'.1 h with ⟨p, hfind, hsnd⟩
  have hp := List.find?_some hfind
  have hmem := List.mem_of_find?_eq_some hfind
  have hk : p.1 = k := of_decide_eq_true hp
  exact hk ▸ List.mem_map_of_mem Prod.fst hmem

theorem assocLookup_insert_self {α : Type} (m : List (String × α)) (k : String) (v : α) :
    assocLookup (assocInsert m k v) k = some v := by
  unfold assocLookup assocInsert
  rw [List.find?_append]
  have hnone : (assocErase m k).find? (fun p => decide (p.1 = k)) = none := by
    rw [List.find?_eq_none]
    intro p hp
    have := (List.mem_filter.1 hp).2
    simp only [decide_eq_true_eq] at this ⊢
    exact this
  rw [hnone]
  simp

theorem mkMissingDetail_injective : Function.Injective mkMissingDetail :=
  fun _ _ h => congrArg mismatchDetail.Expected h

theorem sessionMismatches_eq_filter (s : session) (hwk : wellKeyed s.interactions) :
    (sessionMismatches s).Mismatches =
      ((assocKeys s.interactions).filter
        (fun k => decide (k ∉ s.matchedInteractions))).map mkMissingDetail := by
  unfold sessionMismatches
  simp only
  rw [foldl_assocErase_eq_filter]
  have h1 :
      (s.interactions.filter
          (fun p => decide (p.1 ∉ s.matchedInteractions))).map
        (fun p => ({ Actual := ""
                     Expected := p.2.Message
                     Mismatch := "expected message " ++ squote ++ p.2.Message ++ squote
                        ++ ", but got none" } : mismatchDetail)) =
      (s.interactions.filter
          (fun p => decide (p.1 ∉ s.matchedInteractions))).map
        (fun p => mkMissingDetail p.1) := by
    apply List.map_congr_left
    intro p hp
    have hm := hwk p (List.mem_filter.1 hp).1
    simp [mkMissingDetail, hm]
  rw [h1]
  rw [show (fun p : String × interaction => mkMissingDetail p.1) =
        mkMissingDetail ∘ Prod.fst from rfl]
  rw [← List.map_map]
  congr 1
  rw [assocKeys, List.filter_map]
  rfl

/-- C2: for every session (with the well-formedness `loadInteractions`
establishes: distinct keys, each bound to an interaction whose `Message`
is that key), `sessionMismatches` returns exactly one `MismatchDetail`
per key in `keys(expectedInteractions) \ matchedMessages`, each with
`actual = ""`, `expected` = the message key, and reason
`expected message '<message>', but got none`; a key matched more than
once still counts as matched exactly once, and no matched key appears. -/
theorem sessionMismatches_spec (s : session)
    (hnd : nodupKeys s.interactions) (hwk : wellKeyed s.interactions) :
    (∀ k : String,
        List.count (mkMissingDetail k) (sessionMismatches s).Mismatches =
          if k ∈ assocKeys s.interactions ∧ k ∉ s.matchedInteractions then 1 else 0) ∧
    (∀ d ∈ (sessionMismatches s).Mismatches,
        ∃ k, k ∈ assocKeys s.interactions ∧ k ∉ s.matchedInteractions ∧
          d = mkMissingDetail k) := by
  constructor
  · intro k
    rw [sessionMismatches_eq_filter s hwk]
    rw [List.count_map_of_injective _ mkMissingDetail mkMissingDetail_injective k]
    by_cases hk : k ∈ assocKeys s.interactions ∧ k ∉ s.matchedInteractions
    · rw [if_pos hk]
      apply List.count_eq_one_of_mem (List.Nodup.filter _ hnd)
      rw [List.mem_filter]
      exact ⟨hk.1, by simp [hk.2]⟩
    · rw [if_neg hk]
      rw [List.count_eq_zero]
      intro hmem
      rcases List.mem_filter.1 hmem with ⟨h1, h2⟩
      exact hk ⟨h1, of_decide_eq_true h2⟩
  · intro d hd
    rw [sessionMismatches_eq_filter s hwk] at hd
    rcases List.mem_map.1 hd with ⟨k, hkmem, hdk⟩
    rcases List.mem_filter.1 hkmem with ⟨h1, h2⟩
    exact ⟨k, h1, of_decide_eq_true h2, hdk.symm⟩

/-- Witness for C2 on a concrete session: with `PING -> PONG` loaded and
nothing matched, the report holds exactly one detail for `PING`. -/
theorem sessionMismatches_spec_witness :
    List.count (mkMissingDetail "PING") (sessionMismatches sessionPing).Mismatches = 1 ∧
    ∃ k, k ∈ assocKeys sessionPing.interactions ∧ k ∉ sessionPing.matchedInteractions ∧
      mkMissingDetail "PING" = mkMissingDetail k := by
  have h := sessionMismatches_spec sessionPing (by decide) (by decide)
  constructor
  · have := h.1 "PING"
    rwa [if_pos (by decide)] at this
  · exact h.2 (mkMissingDetail "PING") (by
      have := h.1 "PING"
      rw [if_pos (by decide)] at this
      exact List.count_pos_iff.1 (by rw [this]; decide))

/-- C3: the matcher looks the trimmed inbound message up by exact
equality: a hit appends the key to `matchedMessages` (re-appending on a
repeated match) and returns the configured response; a miss returns the
empty response, changes nothing, and contributes no mismatch. -/
theorem matchRequest_spec (s : session) (raw msg : String) :
    (∀ i, assocLookup s.interactions msg = some i →
        matchRequest msg s =
          (i.Response,
            { s with matchedInteractions := s.matchedInteractions ++ [msg] })) ∧
    (assocLookup s.interactions msg = none →
        matchRequest msg s = ("", s) ∧
        sessionMismatches (matchRequest msg s).2 = sessionMismatches s) ∧
    handleRequest true raw s = matchRequest raw.trim s := by
  refine ⟨?_, ?_, ?_⟩
  · intro i hi
    unfold matchRequest
    rw [hi]
  · intro hnone
    unfold matchRequest
    rw [hnone]
    exact ⟨rfl, rfl⟩
  · unfold handleRequest
    rw [if_pos rfl]

/-- Witness for C3: `PING` hits (response `PONG`, key appended), `NOPE`
misses (empty response, session unchanged). -/
theorem matchRequest_spec_witness :
    matchRequest "PING" sessionPing =
      ("PONG", { sessionPing with matchedInteractions := ["PING"] }) ∧
    matchRequest "NOPE" sessionPing = ("", sessionPing) := by
  constructor
  · have h := (matchRequest_spec sessionPing "" "PING").1
      { Message := "PING", Response := "PONG", Delimeter := "" } (by decide)
    simpa using h
  · exact ((matchRequest_spec sessionPing "" "NOPE").2.1 (by decide)).1

/-- C4 counterexample: interaction loading does not always preserve
`matchedMessages ⊆ keys(expectedInteractions)`.  Load `{A}`, match `"A"`,
then load `{B}` on the same session: `loadInteractions` replaces the map
without clearing `matchedInteractions`, so `"A"` stays matched while no
longer a key.  This refutes the claim that every operation, including
repeated loading, preserves the containment. -/
theorem loadInteractions_invariant_cex :
    sessionInvariant ((matchRequest "A" (loadInteractionsCore emptySession [iA])).2) ∧
    ¬ sessionInvariant sessionAfterReload := by
  constructor
  · decide
  · decide

/-- C4 amended: matching preserves the containment and appends only a key
present in the map at lookup time, and mismatch computation does not
change the session; interaction loading, however, replaces the map while
keeping `matchedMessages`, so it preserves the containment exactly when
every previously matched message is among the newly loaded keys — in
particular it establishes the invariant whenever nothing has been matched
yet (the intended load-before-match discipline). -/
theorem sessionInvariant_preservation (s : session) (msg : String)
    (ints : List interaction) :
    (sessionInvariant s → sessionInvariant (matchRequest msg s).2) ∧
    ((matchRequest msg s).2.matchedInteractions = s.matchedInteractions ∨
      ((matchRequest msg s).2.matchedInteractions = s.matchedInteractions ++ [msg] ∧
        msg ∈ assocKeys s.interactions)) ∧
    (s.matchedInteractions = [] → sessionInvariant (loadInteractionsCore s ints)) ∧
    ((∀ m ∈ s.matchedInteractions,
        m ∈ assocKeys (loadInteractionsCore s ints).interactions) →
      sessionInvariant (loadInteractionsCore s ints)) := by
  refine ⟨?_, ?_, ?_, ?_⟩
  · intro hinv
    unfold matchRequest
    cases hlook : assocLookup s.interactions msg with
    | none => exact hinv
    | some i =>
        intro m hm
        simp only at hm
        rcases List.mem_append.1 hm with hm1 | hm2
        · exact hinv m hm1
        · rw [List.mem_singleton.1 hm2]
          exact assocLookup_some_mem_keys hlook
  · unfold matchRequest
    cases hlook : assocLookup s.interactions msg with
    | none => exact Or.inl rfl
    | some i => exact Or.inr ⟨rfl, assocLookup_some_mem_keys hlook⟩
  · intro hempty
    intro m hm
    rw [show (loadInteractionsCore s ints).matchedInteractions =
          s.matchedInteractions from rfl, hempty] at hm
    cases hm
  · intro h
    exact h

/-- Witness for C4 amended at concrete inputs: matching `"A"` on the
loaded session keeps the invariant, and a fresh load establishes it. -/
theorem sessionInvariant_preservation_witness :
    sessionInvariant (matchRequest "A" (loadInteractionsCore emptySession [iA])).2 ∧
    sessionInvariant (loadInteractionsCore emptySession [iA, iB]) := by
  constructor
  · exact (sessionInvariant_preservation (loadInteractionsCore emptySession [iA]) "A" []).1
      (by decide)
  · exact (sessionInvariant_preservation emptySession "" [iA, iB]).2.2.1 rfl

/-- C8 counterexample: the create-session response does not identify the
admin plane's port.  The handler builds `sessionResponse{Port: port, ID:
id}` and never assigns `AdminPort`, so the response carries the Go zero
value `0` instead of the admin port `4444`. -/
theorem createSession_adminPort_cex :
    (createSession 5000 "abc" []).2.AdminPort ≠ adminPort := by
  decide

/-- C8 amended: create-session stores a fresh empty session under the
generated identifier, hands the freshly allocated port back verbatim in
the response together with the identifier, and leaves `adminPort` at the
int zero value `0` (the field is never populated). -/
theorem createSession_spec (freshPort : Int) (freshId : String)
    (reg : List (String × session)) :
    (createSession freshPort freshId reg).2.ID = freshId ∧
    (createSession freshPort freshId reg).2.Port = freshPort ∧
    (createSession freshPort freshId reg).2.AdminPort = 0 ∧
    assocLookup (createSession freshPort freshId reg).1 freshId =
      some { id := freshId, interactions := [], matchedInteractions := []
             port := freshPort } := by
  refine ⟨rfl, rfl, rfl, ?_⟩
  exact assocLookup_insert_self reg freshId _

theorem append_ne_empty_right (a b : String) (hb : b ≠ "") : a ++ b ≠ "" := by
  intro h
  apply hb
  have hd := congrArg String.data h
  simp only [String.data_append] at hd
  have hnil : a.data ++ b.data = [] := by
    rw [hd]
  have hb2 : b.data = [] := (List.append_eq_nil.1 hnil).2
  cases b with
  | mk d =>
      simp only at hb2
      cases hb2
      decide

theorem validateConfig_eq (env : Env) (c : PluginProviderConfig) :
    validateConfig env c =
      if c.Port ≤ 0 then
        match env.getFreePort with
        | Except.ok port =>
            Except.ok
              { Consumer := c.Consumer
                Provider := c.Provider
                LogDir := if c.LogDir = "" then env.getwd ++ "/logs" else c.LogDir
                PactDir := if c.PactDir = "" then env.getwd ++ "/pacts" else c.PactDir
                Host := if c.Host = "" then "127.0.0.1" else c.Host
                Port := port }
        | Except.error _ =>
            Except.error "error: unable to find free port, mock server will fail to start"
      else
        Except.ok
          { Consumer := c.Consumer
            Provider := c.Provider
            LogDir := if c.LogDir = "" then env.getwd ++ "/logs" else c.LogDir
            PactDir := if c.PactDir = "" then env.getwd ++ "/pacts" else c.PactDir
            Host := if c.Host = "" then "127.0.0.1" else c.Host
            Port := c.Port } := by
  unfold validateConfig
  by_cases h1 : c.Host = ""
  all_goals by_cases h2 : c.LogDir = ""
  all_goals by_cases h3 : c.PactDir = ""
  all_goals simp [h1, h2, h3]

theorem validateConfig_fixed (env2 : Env) (r : PluginProviderConfig)
    (hh : r.Host ≠ "") (hl : r.LogDir ≠ "") (hpa : r.PactDir ≠ "")
    (hpo : 0 < r.Port) : validateConfig env2 r = Except.ok r := by
  rw [validateConfig_eq]
  rw [if_neg (by omega)]
  rw [if_neg hh, if_neg hl, if_neg hpa]

/-- C7: configuration validation fills the defaults (`Host` `127.0.0.1`,
`LogDir` `<cwd>/logs`, `PactDir` `<cwd>/pacts` when empty, `Port` from
the OS ephemeral-port mechanism when unset), fails exactly when a free
port was needed but could not be obtained, and is idempotent: validating
an already-validated configuration changes none of its fields (given
that the ephemeral-port mechanism only hands out positive ports). -/
theorem validateConfig_spec (env : Env) (c : PluginProviderConfig)
    (hpos : ∀ q : Int, env.getFreePort = Except.ok q → 0 < q) :
    (exceptOk (validateConfig env c) = false ↔
      (c.Port ≤ 0 ∧ env.getFreePort = Except.error ())) ∧
    (∀ r, validateConfig env c = Except.ok r →
      r.Host = (if c.Host = "" then "127.0.0.1" else c.Host) ∧
      r.LogDir = (if c.LogDir = "" then env.getwd ++ "/logs" else c.LogDir) ∧
      r.PactDir = (if c.PactDir = "" then env.getwd ++ "/pacts" else c.PactDir) ∧
      (c.Port ≤ 0 → env.getFreePort = Except.ok r.Port) ∧
      (0 < c.Port → r.Port = c.Port) ∧
      (∀ env2 : Env, validateConfig env2 r = Except.ok r)) := by
  have hh : (if c.Host = "" then "127.0.0.1" else c.Host) ≠ "" := by
    by_cases hch : c.Host = ""
    · rw [if_pos hch]; decide
    · rw [if_neg hch]; exact hch
  have hl : (if c.LogDir = "" then env.getwd ++ "/logs" else c.LogDir) ≠ "" := by
    by_cases hcl : c.LogDir = ""
    · rw [if_pos hcl]; exact append_ne_empty_right env.getwd "/logs" (by decide)
    · rw [if_neg hcl]; exact hcl
  have hpa : (if c.PactDir = "" then env.getwd ++ "/pacts" else c.PactDir) ≠ "" := by
    by_cases hcp : c.PactDir = ""
    · rw [if_pos hcp]; exact append_ne_empty_right env.getwd "/pacts" (by decide)
    · rw [if_neg hcp]; exact hcp
  rw [validateConfig_eq]
  by_cases hp : c.Port ≤ 0
  · cases hfp : env.getFreePort with
    | error e =>
        cases e
        constructor
        · simp [hp, hfp, exceptOk]
        · intro r hr
          rw [if_pos hp] at hr
          simp at hr
    | ok q =>
        have hq : (0 : Int) < q := hpos q hfp
        constructor
        · simp [hp, hfp, exceptOk]
        · intro r hr
          rw [if_pos hp] at hr
          injection hr with hr
          subst hr
          refine ⟨rfl, rfl, rfl, ?_, ?_, ?_⟩
          · intro _
            rfl
          · intro hcp
            omega
          · intro env2
            exact validateConfig_fixed env2 _ hh hl hpa hq
  · constructor
    · simp [hp, exceptOk]
    · intro r hr
      rw [if_neg hp] at hr
      cases hr
      refine ⟨rfl, rfl, rfl, ?_, ?_, ?_⟩
      · intro hcp
        exact absurd hcp hp
      · intro _
        rfl
      · intro env2
        have hcp : (0 : Int) < c.Port := by omega
        exact validateConfig_fixed env2 _ hh hl hpa hcp

/-- Witness for C7: a blank configuration validated against a concrete
environment gets all defaults filled, and re-validating the result is a
no-op. -/
theorem validateConfig_spec_witness :
    validateConfig envHappy
        { Consumer := "c", Provider := "p", LogDir := "", PactDir := "",
          Host := "", Port := 0 } =
      Except.ok
        { Consumer := "c", Provider := "p", LogDir := "/cwd/logs",
          PactDir := "/cwd/pacts", Host := "127.0.0.1", Port := 8080 } ∧
    validateConfig envHappy
        { Consumer := "c", Provider := "p", LogDir := "/cwd/logs",
          PactDir := "/cwd/pacts", Host := "127.0.0.1", Port := 8080 } =
      Except.ok
        { Consumer := "c", Provider := "p", LogDir := "/cwd/logs",
          PactDir := "/cwd/pacts", Host := "127.0.0.1", Port := 8080 } := by
  have h1 : validateConfig envHappy
      { Consumer := "c", Provider := "p", LogDir := "", PactDir := "",
        Host := "", Port := 0 } =
      Except.ok
        { Consumer := "c", Provider := "p", LogDir := "/cwd/logs",
          PactDir := "/cwd/pacts", Host := "127.0.0.1", Port := 8080 } := by
    rfl
  refine ⟨h1, ?_⟩
  exact ((validateConfig_spec envHappy
      { Consumer := "c", Provider := "p", LogDir := "", PactDir := "",
        Host := "", Port := 0 }
      (by intro q hq; simp [envHappy] at hq; omega)).2
    { Consumer := "c", Provider := "p", LogDir := "/cwd/logs",
      PactDir := "/cwd/pacts", Host := "127.0.0.1", Port := 8080 }
    h1).2.2.2.2.2 envHappy

theorem verifyPlugin_ops (env : Env) (port : Int) :
    (VerifyPlugin env port).2 =
      [EngineOp.pluginMockServerMatchedOp port,
        EngineOp.pluginMockServerMismatchesOp port] := by
  unfold VerifyPlugin PluginMockServerMismatchedRequests
  cases env.unmarshalMismatches (env.plugin_mock_server_mismatches port) <;> rfl

theorem executeTest_timeout (env : Env) (w : Int → Bool) (p : PluginProvider)
    (cb : MockServerConfig → Option String)
    (hwp : w p.config.Port = false) :
    ExecuteTest env w p cb =
      { err := some (ExecError.timeoutError p.config.Port)
        finalInteractions := p.Interactions
        cleanInteractionsRuns := 0
        engineOps := [EngineOp.createPluginMockServerOp p.config.Port "test",
          EngineOp.cleanupPluginMockServerOp p.config.Port] } := by
  unfold ExecuteTest CreatePluginMockServer CleanupPluginMockServer
  simp [hwp]

theorem executeTest_loadError (env : Env) (w : Int → Bool) (p : PluginProvider)
    (cb : MockServerConfig → Option String) (e : String)
    (hwp : w p.config.Port = true)
    (hm : env.marshalInteractions p.Interactions = Except.error e) :
    ExecuteTest env w p cb =
      { err := some (ExecError.loadError e)
        finalInteractions := p.Interactions
        cleanInteractionsRuns := 0
        engineOps := [EngineOp.createPluginMockServerOp p.config.Port "test",
          EngineOp.cleanupPluginMockServerOp p.config.Port] } := by
  unfold ExecuteTest CreatePluginMockServer CleanupPluginMockServer AddPluginInteractions
  simp [hwp, hm]

theorem executeTest_callbackError (env : Env) (w : Int → Bool) (p : PluginProvider)
    (cb : MockServerConfig → Option String) (b e : String)
    (hwp : w p.config.Port = true)
    (hm : env.marshalInteractions p.Interactions = Except.ok b)
    (hcb : cb { Port := env.create_plugin_mock_server p.config.Port "test",
                Host := p.config.Host } = some e) :
    ExecuteTest env w p cb =
      { err := some (ExecError.callbackError e)
        finalInteractions := []
        cleanInteractionsRuns := 1
        engineOps := [EngineOp.createPluginMockServerOp p.config.Port "test",
          EngineOp.addPluginInteractionOp p.config.Port b,
          EngineOp.cleanupPluginMockServerOp p.config.Port] } := by
  unfold ExecuteTest CreatePluginMockServer CleanupPluginMockServer AddPluginInteractions
    cleanInteractions
  simp [hwp, hm, hcb]

theorem executeTest_after_callback (env : Env) (w : Int → Bool) (p : PluginProvider)
    (cb : MockServerConfig → Option String) (b : String)
    (hwp : w p.config.Port = true)
    (hm : env.marshalInteractions p.Interactions = Except.ok b)
    (hcb : cb { Port := env.create_plugin_mock_server p.config.Port "test",
                Host := p.config.Host } = none) :
    ExecuteTest env w p cb =
      (if (VerifyPlugin env p.config.Port).1.1 then
        { err := none
          finalInteractions := []
          cleanInteractionsRuns := 1
          engineOps := [EngineOp.createPluginMockServerOp p.config.Port "test",
            EngineOp.addPluginInteractionOp p.config.Port b,
            EngineOp.pluginMockServerMatchedOp p.config.Port,
            EngineOp.pluginMockServerMismatchesOp p.config.Port,
            EngineOp.cleanupPluginMockServerOp p.config.Port] }
      else
        { err := some (ExecError.verificationError (VerifyPlugin env p.config.Port).1.2)
          finalInteractions := []
          cleanInteractionsRuns := 1
          engineOps := [EngineOp.createPluginMockServerOp p.config.Port "test",
            EngineOp.addPluginInteractionOp p.config.Port b,
            EngineOp.pluginMockServerMatchedOp p.config.Port,
            EngineOp.pluginMockServerMismatchesOp p.config.Port,
            EngineOp.cleanupPluginMockServerOp p.config.Port] }) := by
  have hops := verifyPlugin_ops env p.config.Port
  unfold ExecuteTest CreatePluginMockServer CleanupPluginMockServer AddPluginInteractions
    cleanInteractions WritePact
  simp only [hwp, hm, hcb]
  by_cases hv : (VerifyPlugin env p.config.Port).1.1
  · simp [hv, hops]
  · simp [hv, hops]

/-- C1 counterexample: when the readiness wait times out, `ExecuteTest`
returns with the interaction-list reset never having run and the
provider's list non-empty — the reset `defer` is only registered after a
successful interaction load, so it does not execute on every exit path. -/
theorem executeTest_reset_skipped_cex :
    (ExecuteTest envHappy (fun _ => false) provider1
      (fun _ => none)).finalInteractions ≠ [] ∧
    (ExecuteTest envHappy (fun _ => false) provider1
      (fun _ => none)).cleanInteractionsRuns = 0 := by
  constructor
  · decide
  · decide

/-- C1 amended: the mock-server cleanup runs exactly once on every
invocation of `ExecuteTest` (the start-failure return is unreachable
because `CreatePluginMockServer` never returns an error), while the
interaction-list reset runs exactly once — leaving the list empty — if
and only if the readiness wait succeeded and the interaction payload
marshalled, i.e. on the callback-error, verification-failure and success
paths; on the timeout and load-failure paths the list is left as it
was. -/
theorem executeTest_cleanup_spec (env : Env) (w : Int → Bool) (p : PluginProvider)
    (cb : MockServerConfig → Option String) :
    List.count (EngineOp.cleanupPluginMockServerOp p.config.Port)
        (ExecuteTest env w p cb).engineOps = 1 ∧
    ((ExecuteTest env w p cb).cleanInteractionsRuns = 1 ∧
        (ExecuteTest env w p cb).finalInteractions = [] ↔
      (w p.config.Port = true ∧
        exceptOk (env.marshalInteractions p.Interactions) = true)) := by
  by_cases hwp : w p.config.Port = true
  · cases hm : env.marshalInteractions p.Interactions with
    | error e =>
        rw [executeTest_loadError env w p cb e hwp hm]
        constructor
        · simp [List.count_cons]
        · simp [exceptOk]
    | ok b =>
        cases hcb : cb { Port := env.create_plugin_mock_server p.config.Port "test",
                         Host := p.config.Host } with
        | some e =>
            rw [executeTest_callbackError env w p cb b e hwp hm hcb]
            constructor
            · simp [List.count_cons]
            · simp [hwp, exceptOk]
        | none =>
            rw [executeTest_after_callback env w p cb b hwp hm hcb]
            by_cases hv : (VerifyPlugin env p.config.Port).1.1
            · rw [if_pos hv]
              constructor
              · simp [List.count_cons]
              · simp [hwp, exceptOk]
            · rw [if_neg hv]
              constructor
              · simp [List.count_cons]
              · simp [hwp, exceptOk]
  · have hwp2 : w p.config.Port = false := by simpa using hwp
    rw [executeTest_timeout env w p cb hwp2]
    constructor
    · simp [List.count_cons]
    · simp [hwp2]

/-- C5 counterexample: mismatches being present do not by themselves
produce an error.  With an engine that reports `matched = 1` while its
mismatch report parses to a non-empty list, `ExecuteTest` returns nil:
the code only tests the boolean verification result. -/
theorem executeTest_mismatch_no_error_cex :
    (ExecuteTest envMismatchOk (fun _ => true) provider1 (fun _ => none)).err = none ∧
    (VerifyPlugin envMismatchOk provider1.config.Port).1.2.Mismatches ≠ [] := by
  constructor
  · decide
  · decide

/-- C5 amended: after the consumer callback succeeds, the verification
step produces the contract-verification-failed error, carrying the
mismatch data `VerifyPlugin` returned, if and only if `VerifyPlugin`'s
boolean result is false (engine matched-code not 1, or an unparseable
mismatch payload); the presence of mismatches alone does not produce the
error, and no pact artifact is written on any path of the run. -/
theorem executeTest_verification_spec (env : Env) (w : Int → Bool)
    (p : PluginProvider) (cb : MockServerConfig → Option String) (b : String)
    (hwp : w p.config.Port = true)
    (hm : env.marshalInteractions p.Interactions = Except.ok b)
    (hcb : cb { Port := env.create_plugin_mock_server p.config.Port "test",
                Host := p.config.Host } = none) :
    (ExecuteTest env w p cb).err =
      (if (VerifyPlugin env p.config.Port).1.1 then none
       else some (ExecError.verificationError (VerifyPlugin env p.config.Port).1.2)) ∧
    hasPactWrite (ExecuteTest env w p cb).engineOps = false := by
  rw [executeTest_after_callback env w p cb b hwp hm hcb]
  by_cases hv : (VerifyPlugin env p.config.Port).1.1
  · rw [if_pos hv, if_pos hv]
    exact ⟨rfl, rfl⟩
  · rw [if_neg hv, if_neg hv]
    exact ⟨rfl, rfl⟩

/-- Witness for C5 amended on a fully successful concrete run: the
verification boolean is true, so no error is returned and no pact write
appears in the trace. -/
theorem executeTest_verification_spec_witness :
    (ExecuteTest envHappy (fun _ => true) provider1 (fun _ => none)).err = none ∧
    hasPactWrite (ExecuteTest envHappy (fun _ => true) provider1
      (fun _ => none)).engineOps = false := by
  have h := executeTest_verification_spec envHappy (fun _ => true) provider1
    (fun _ => none) "{}" rfl rfl rfl
  constructor
  · rw [h.1]
    decide
  · exact h.2

/-- C6: the claim is right about the intent (the function's own comment
says it writes the pact file) but the code is a stub: `WritePact` only
logs and returns nil, invoking no engine pact-writing operation, and no
`ExecuteTest` path ever emits a pact-file write. -/
theorem writePact_writes_nothing (env : Env) (w : Int → Bool) (p : PluginProvider)
    (cb : MockServerConfig → Option String) :
    WritePact p = (none, []) ∧
    hasPactWrite (ExecuteTest env w p cb).engineOps = false := by
  refine ⟨rfl, ?_⟩
  by_cases hwp : w p.config.Port = true
  · cases hm : env.marshalInteractions p.Interactions with
    | error e =>
        rw [executeTest_loadError env w p cb e hwp hm]
        rfl
    | ok b =>
        cases hcb : cb { Port := env.create_plugin_mock_server p.config.Port "test",
                         Host := p.config.Host } with
        | some e =>
            rw [executeTest_callbackError env w p cb b e hwp hm hcb]
            rfl
        | none =>
            rw [executeTest_after_callback env w p cb b hwp hm hcb]
            by_cases hv : (VerifyPlugin env p.config.Port).1.1
            · rw [if_pos hv]
              rfl
            · rw [if_neg hv]
              rfl
  · have hwp2 : w p.config.Port = false := by simpa using hwp
    rw [executeTest_timeout env w p cb hwp2]
    rfl

/-- C9: `CreatePluginMockServer` passes the raw engine value through as
the client port and returns a nil error unconditionally, so the
mock-server-start failure branch of `ExecuteTest` is unreachable: no
invocation ever returns a start error. -/
theorem createPluginMockServer_never_fails (env : Env) (port : Int) (cmd : String)
    (w : Int → Bool) (p : PluginProvider) (cb : MockServerConfig → Option String) :
    (CreatePluginMockServer env port cmd).1 =
      (env.create_plugin_mock_server port cmd, none) ∧
    isStartError (ExecuteTest env w p cb).err = false := by
  refine ⟨rfl, ?_⟩
  by_cases hwp : w p.config.Port = true
  · cases hm : env.marshalInteractions p.Interactions with
    | error e =>
        rw [executeTest_loadError env w p cb e hwp hm]
        rfl
    | ok b =>
        cases hcb : cb { Port := env.create_plugin_mock_server p.config.Port "test",
                         Host := p.config.Host } with
        | some e =>
            rw [executeTest_callbackError env w p cb b e hwp hm hcb]
            rfl
        | none =>
            rw [executeTest_after_callback env w p cb b hwp hm hcb]
            by_cases hv : (VerifyPlugin env p.config.Port).1.1
            · rw [if_pos hv]
              rfl
            · rw [if_neg hv]
              rfl
  · have hwp2 : w p.config.Port = false := by simpa using hwp
    rw [executeTest_timeout env w p cb hwp2]
    rfl

/-- C10: `AddPluginInteractions` returns an error exactly when the JSON
marshal of the payload fails; the engine's return code for the add
operation is discarded (the result only depends on the marshal oracle),
so once the payload marshals, no `ExecuteTest` run is ever aborted by the
interaction-load step, whatever the engine replies. -/
theorem addPluginInteractions_spec (env env2 : Env) (port : Int)
    (ints : List InteractionPayload) (w : Int → Bool) (p : PluginProvider)
    (cb : MockServerConfig → Option String)
    (heq : env2.marshalInteractions = env.marshalInteractions) :
    (∀ e, (AddPluginInteractions env port ints).1 = some e ↔
        env.marshalInteractions ints = Except.error e) ∧
    (AddPluginInteractions env2 port ints).1 =
      (AddPluginInteractions env port ints).1 ∧
    ((∃ b, env.marshalInteractions p.Interactions = Except.ok b) →
      isLoadError (ExecuteTest env w p cb).err = false) := by
  refine ⟨?_, ?_, ?_⟩
  · intro e
    unfold AddPluginInteractions
    cases hm : env.marshalInteractions ints with
    | error e2 => simp
    | ok b => simp
  · unfold AddPluginInteractions
    rw [heq]
  · rintro ⟨b, hm⟩
    by_cases hwp : w p.config.Port = true
    · cases hcb : cb { Port := env.create_plugin_mock_server p.config.Port "test",
                       Host := p.config.Host } with
      | some e =>
          rw [executeTest_callbackError env w p cb b e hwp hm hcb]
          rfl
      | none =>
          rw [executeTest_after_callback env w p cb b hwp hm hcb]
          by_cases hv : (VerifyPlugin env p.config.Port).1.1
          · rw [if_pos hv]
            rfl
          · rw [if_neg hv]
            rfl
    · have hwp2 : w p.config.Port = false := by simpa using hwp
      rw [executeTest_timeout env w p cb hwp2]
      rfl

/-- Witness for C10 at concrete inputs: the add succeeds (marshal ok) and
the concrete happy run is not aborted at the load step. -/
theorem addPluginInteractions_spec_witness :
    (AddPluginInteractions envHappy 1234 ["payload1"]).1 = none ∧
    isLoadError (ExecuteTest envHappy (fun _ => true) provider1
      (fun _ => none)).err = false := by
  have h := addPluginInteractions_spec envHappy envHappy 1234 ["payload1"]
    (fun _ => true) provider1 (fun _ => none) rfl
  exact ⟨by decide, h.2.2 ⟨"{}", rfl⟩⟩
